import Mathlib

/-!
Verification of the LogiDoc documentation site repository.

The repository has exactly two pieces of executable behaviour:

* `src/components/ConditionalNavScript.tsx` — a route-aware React effect
  component that toggles the body class `actions-sdk-page` according to
  whether the current pathname contains the substring `/docs/actions-sdk/`,
  and removes the class on unmount.
* `src/pages/index.tsx` — the `SDKGrid` homepage component, mapping a fixed
  list of SDK descriptors to cards.

The declarative data the claims speak about is `sidebars.ts` (the sidebar
navigation tree) and the markdown content corpus under `docs/`.

This file embeds those parts shallowly and proves the claims about them.
-/

/-! ## Substring containment (JavaScript String.prototype.includes) -/

/-- Substring containment on character lists: `true` exactly when `pat`
occurs contiguously somewhere in the second list.  This embeds the
JavaScript `String.prototype.includes` test used on line 9 of
`ConditionalNavScript.tsx`. -/
def hasSubstr (pat : List Char) : List Char → Bool
  | [] => pat.isEmpty
  | c :: rest => pat.isPrefixOf (c :: rest) || hasSubstr pat rest

/-- JavaScript `s.includes(pat)` on strings. -/
def jsIncludes (s pat : String) : Bool :=
  hasSubstr pat.data s.data

/-! ## The route-conditional component (ConditionalNavScript.tsx) -/

/-- The marker class added to the document body
(`ConditionalNavScript.tsx`, line 13). -/
def actionsSdkMarker : String := "actions-sdk-page"

/-- The fixed substring the pathname is tested against
(`ConditionalNavScript.tsx`, line 9). -/
def actionsSdkNeedle : String := "/docs/actions-sdk/"

/-- Line 9 of the component:
`location.pathname.includes('/docs/actions-sdk/')`. -/
def isActionsSDKPage (pathname : String) : Bool :=
  jsIncludes pathname actionsSdkNeedle

/-- DOMTokenList membership: `classList.contains`. -/
def classListContains (cs : List String) (c : String) : Bool :=
  cs.contains c

/-- DOMTokenList `add`: appends the token unless it is already present
(idempotent, per the DOM standard). -/
def classListAdd (cs : List String) (c : String) : List String :=
  if cs.contains c then cs else cs ++ [c]

/-- DOMTokenList `remove`: removes every occurrence of the token. -/
def classListRemove (cs : List String) (c : String) : List String :=
  cs.filter (fun x => !(x == c))

/-- Observable DOM state: the body class list, plus an abstract remainder
`rest` standing for every other part of the observable document state.  The
type parameter keeps the embedding honest about the frame: the component can
only be proved to leave `rest` unchanged because it never looks at it. -/
structure BodyState (α : Type) where
  classes : List String
  rest : α
  deriving DecidableEq

/-- The effect body of `ConditionalNavScript` (lines 7 to 16): test the
pathname, then add or remove the marker class on the body. -/
def runEffect {α : Type} (pathname : String) (st : BodyState α) : BodyState α :=
  if isActionsSDKPage pathname then
    { st with classes := classListAdd st.classes actionsSdkMarker }
  else
    { st with classes := classListRemove st.classes actionsSdkMarker }

/-- The cleanup function returned by the effect (lines 19 to 21):
unconditionally remove the marker class. -/
def runCleanup {α : Type} (st : BodyState α) : BodyState α :=
  { st with classes := classListRemove st.classes actionsSdkMarker }

/-- The render result of the component (line 24): it returns `null` and
renders nothing. -/
def conditionalNavScriptReturn : Option Unit := none

/-! ## The homepage card grid (index.tsx, SDKGrid) -/

/-- An SDK descriptor record from the hard-coded `sdks` array of `SDKGrid`
(`index.tsx`, lines 25 to 68).  `image` and `video` are optional. -/
structure SDKDescriptor where
  title : String
  description : String
  link : String
  className : String
  image : Option String := none
  video : Option String := none
  deriving DecidableEq

/-- JavaScript truthiness of an optional string, as used by the JSX guards
`sdk.image && ...` and `sdk.video && ...`: an absent field is falsy, and so
is the empty string. -/
def jsTruthy : Option String → Bool
  | none => false
  | some s => !(s == "")

/-- A media block of a card: either the image figure (lines 84 to 97 of
`index.tsx`, with `src` the image URL and `alt` the SDK title) or the video
figure (lines 98 to 114, with `src` the video URL). -/
inductive MediaBlock where
  | imageBlock (src : String) (alt : String)
  | videoBlock (src : String)
  deriving DecidableEq

/-- A rendered SDK card (lines 83 to 128 of `index.tsx`): the wrapper class
produced by `clsx`, the media blocks in document order, the heading text,
the body paragraph, and the footer link with its label. -/
structure Card where
  cardClass : String
  media : List MediaBlock
  headingText : String
  bodyText : String
  footerLink : String
  footerLabel : String
  deriving DecidableEq

/-- The `clsx` call of line 83 restricted to its two-argument use:
joins the nonempty class strings with a space. -/
def clsx2 (a b : String) : String :=
  if b == "" then a else a ++ " " ++ b

/-- Projection of one descriptor to its card, following the JSX template of
lines 83 to 128 of `index.tsx` top to bottom: wrapper class, the image
block when `sdk.image` is truthy, the video block when `sdk.video` is
truthy, heading, body, footer link labelled `Learn More`. -/
def renderCard (sdk : SDKDescriptor) : Card :=
  { cardClass := clsx2 "card" sdk.className,
    media :=
      (if jsTruthy sdk.image then
        [MediaBlock.imageBlock (sdk.image.getD "") sdk.title] else []) ++
      (if jsTruthy sdk.video then
        [MediaBlock.videoBlock (sdk.video.getD "")] else []),
    headingText := sdk.title,
    bodyText := sdk.description,
    footerLink := sdk.link,
    footerLabel := "Learn More" }

/-- The map of line 81 of `index.tsx`: one card per descriptor, in order. -/
def renderCards (sdks : List SDKDescriptor) : List Card :=
  sdks.map renderCard

/-- The hard-coded descriptor list of `SDKGrid` (`index.tsx`,
lines 25 to 68). -/
def sdksData : List SDKDescriptor :=
  [ { title := "Logitech Actions SDK",
      description := "Create custom actions and integrations for Logitech gaming peripherals.",
      link := "/docs/actions-sdk/",
      className := "actions-sdk",
      image := some "/LogiDoc/img/mx-creative-console.gif" },
    { title := "LightSync SDK",
      description := "Control RGB lighting effects and synchronization across Logitech devices.",
      link := "/docs/lightsync-sdk/intro",
      className := "lightsync-sdk",
      image := some "/LogiDoc/img/g-hub-article-lightsync-rgb-hero-desktop.webp" },
    { title := "TrueForce SDK",
      description := "Access advanced force feedback and haptic technology.",
      link := "/docs/gamepanel/intro",
      className := "trueforce-sdk",
      video := some "/LogiDoc/img/gaming-trueforce-hero-desktop.mp4" },
    { title := "Haptics G",
      description := "Implement haptic feedback and tactile responses in your applications.",
      link := "/docs/led-illumination/intro",
      className := "haptics-sdk",
      image := some "/LogiDoc/img/cover-6.jpg" },
    { title := "Video SDK",
      description := "Integrate with Logitech webcams and video streaming devices.",
      link := "/docs/video-sdk/intro",
      className := "video-sdk",
      image := some "/LogiDoc/img/images.jpg" },
    { title := "Blue Voice SDK",
      description := "Access professional voice processing and audio enhancement features.",
      link := "/docs/blue-voice-sdk/intro",
      className := "blue-voice-sdk",
      image := some "/LogiDoc/img/download.jpg" } ]

/-- The full grid as rendered by `SDKGrid`. -/
def SDKGrid : List Card :=
  renderCards sdksData

/-! ## The sidebar navigation tree (sidebars.ts) -/

/-- A sidebar entry (`sidebars.ts`): either a leaf document reference, a
plain string id, or a category node with a label, the optional
`collapsible` and `collapsed` flags, and child items. -/
inductive SidebarItem where
  | doc (id : String)
  | category (label : String) (collapsible : Option Bool) (collapsed : Option Bool)
      (items : List SidebarItem)

mutual

/-- The leaf document ids of one sidebar item, in order. -/
def SidebarItem.leafIds : SidebarItem → List String
  | SidebarItem.doc i => [i]
  | SidebarItem.category _ _ _ items => sidebarItemsLeafIds items

/-- The leaf document ids of a list of sidebar items, in order. -/
def sidebarItemsLeafIds : List SidebarItem → List String
  | [] => []
  | x :: xs => SidebarItem.leafIds x ++ sidebarItemsLeafIds xs

end

/-- The `actionsSdkSidebar` entry of `sidebars.ts` (lines 4 to 44). -/
def actionsSdkSidebar : List SidebarItem :=
  [ SidebarItem.doc "actions-sdk/index",
    SidebarItem.doc "actions-sdk/overview",
    SidebarItem.doc "actions-sdk/getting-started",
    SidebarItem.doc "actions-sdk/installation",
    SidebarItem.doc "actions-sdk/authentication",
    SidebarItem.doc "actions-sdk/quick-start",
    SidebarItem.category "Core Concepts" none none
      [ SidebarItem.doc "actions-sdk/core-concepts/objects",
        SidebarItem.doc "actions-sdk/core-concepts/webhooks",
        SidebarItem.doc "actions-sdk/core-concepts/rate-limits" ],
    SidebarItem.doc "actions-sdk/api-reference",
    SidebarItem.category "Guides & Tutorials" none none
      [ SidebarItem.doc "actions-sdk/guides/payment-intents",
        SidebarItem.doc "actions-sdk/guides/save-cards",
        SidebarItem.doc "actions-sdk/guides/webhooks-guide" ],
    SidebarItem.doc "actions-sdk/samples",
    SidebarItem.doc "actions-sdk/error-handling",
    SidebarItem.doc "actions-sdk/release-notes",
    SidebarItem.doc "actions-sdk/faq",
    SidebarItem.doc "actions-sdk/support",
    SidebarItem.category "Plugin Development (Hidden)" (some true) (some true)
      [ SidebarItem.doc "actions-sdk/plugin-development/marketplace-approval-guidelines" ],
    SidebarItem.doc "actions-sdk/plugin-development/marketplace-approval-guidelines" ]

/-- The `sdk2Sidebar` entry of `sidebars.ts` (lines 45 to 105). -/
def sdk2Sidebar : List SidebarItem :=
  [ SidebarItem.category "Introduction" (some false) none
      [ SidebarItem.doc "sdk2/getting-started",
        SidebarItem.doc "sdk2/your-first-changes",
        SidebarItem.doc "sdk2/plugin-environment" ],
    SidebarItem.category "Plugin Guides" (some false) none
      [ SidebarItem.doc "sdk2/actions",
        SidebarItem.doc "sdk2/keys",
        SidebarItem.doc "sdk2/dials",
        SidebarItem.doc "sdk2/settings",
        SidebarItem.doc "sdk2/property-inspectors",
        SidebarItem.doc "sdk2/devices",
        SidebarItem.doc "sdk2/profiles",
        SidebarItem.doc "sdk2/logging",
        SidebarItem.doc "sdk2/deep-linking",
        SidebarItem.doc "sdk2/app-monitoring",
        SidebarItem.doc "sdk2/system",
        SidebarItem.doc "sdk2/localization",
        SidebarItem.doc "sdk2/distribution" ],
    SidebarItem.category "Style Guide" (some false) none
      [ SidebarItem.doc "sdk2/plugin-guidelines",
        SidebarItem.doc "sdk2/code-linting",
        SidebarItem.doc "sdk2/submission-guidelines" ],
    SidebarItem.category "References" (some false) none
      [ SidebarItem.doc "sdk2/manifest",
        SidebarItem.doc "sdk2/touchscreen-layout",
        SidebarItem.doc "sdk2/changes" ],
    SidebarItem.category "WebSocket API" (some false) none
      [ SidebarItem.doc "sdk2/websocket-api-plugin",
        SidebarItem.doc "sdk2/websocket-api-property-inspector",
        SidebarItem.doc "sdk2/websocket-api-changes" ] ]

/-- The whole `sidebars` configuration object, keyed by sidebar name. -/
def sidebars : List (String × List SidebarItem) :=
  [ ("actionsSdkSidebar", actionsSdkSidebar), ("sdk2Sidebar", sdk2Sidebar) ]

/-- Every leaf document id appearing anywhere in the sidebar configuration,
in order of appearance. -/
def sidebarLeafIds : List String :=
  (sidebars.map (fun s => sidebarItemsLeafIds s.2)).flatten

/-- The document ids of the named markdown files present under `docs/` in
the repository snapshot.  The framework derives the id from the path
relative to `docs/` with the extension stripped; no frontmatter in these
files overrides its id. -/
def knownDocIds : List String :=
  [ "actions-sdk/api-reference",
    "actions-sdk/authentication",
    "actions-sdk/core-concepts/objects",
    "actions-sdk/faq",
    "actions-sdk/getting-started",
    "actions-sdk/guides/payment-intents",
    "actions-sdk/guides/save-cards",
    "actions-sdk/index",
    "actions-sdk/installation",
    "actions-sdk/overview",
    "actions-sdk/plugin-features/manage-plugin-settings",
    "actions-sdk/release-notes",
    "actions-sdk/tutorial/add-simple-adjustment",
    "actions-sdk/tutorial/add-simple-command",
    "gamepanel/intro",
    "led-illumination/intro",
    "lightsync-sdk/troubleshooting",
    "lightsync-sdk/udk/getting-started",
    "steering-wheel/intro" ]

/-- Modelled from the spec: the part of the content corpus missing from the
repository snapshot.  The snapshot ships fourteen content files whose names
and ids are unknown, and the `sdk2` section documents (linked from the site
navbar and listed in `sdk2Sidebar`) are not in the snapshot at all, while a
shipped developer brief names further actions-sdk pages (quick-start,
samples, support and others) that exist in the repository.  The spec states
that every leaf id must resolve to an existing document and that the
external framework enforces this at build time, so the modelled remainder
of the corpus supplies a document for exactly those sidebar leaf ids that
are not among the named files. -/
def modelledMissingDocIds : List String :=
  sidebarLeafIds.filter (fun i => !(knownDocIds.contains i))

/-- The document ids of the full content corpus: the named files of the
snapshot together with the modelled remainder. -/
def corpusDocIds : List String :=
  knownDocIds ++ modelledMissingDocIds

/-! ## Example inputs used by the witnesses -/

/-- A descriptor with neither media field, used to witness the
missing-media claim. -/
def descriptorNoMedia : SDKDescriptor :=
  { title := "Steering Wheel SDK",
    description := "Force feedback for racing wheels.",
    link := "/docs/steering-wheel/intro",
    className := "steering-wheel-sdk" }

/-- A descriptor with both media fields set to nonempty values. -/
def descriptorBothMedia : SDKDescriptor :=
  { title := "Dual Media SDK",
    description := "A descriptor carrying both an image and a video.",
    link := "/docs/dual/intro",
    className := "dual-sdk",
    image := some "/LogiDoc/img/dual.png",
    video := some "/LogiDoc/img/dual.mp4" }

/-- A descriptor whose image field is set to the empty string: the field is
present, but falsy under the JavaScript truthiness test the JSX uses. -/
def descriptorEmptyImage : SDKDescriptor :=
  { title := "Edge SDK",
    description := "A descriptor with an empty image URL.",
    link := "/docs/edge/intro",
    className := "edge-sdk",
    image := some "",
    video := some "/LogiDoc/img/edge.mp4" }

/-! ## Helper lemmas -/

/-- A list is a substring match of itself followed by anything. -/
theorem hasSubstr_self_append (pat b : List Char) : hasSubstr pat (pat ++ b) = true := by
  cases pat with
  | nil =>
    cases b with
    | nil => rfl
    | cons c r => simp [hasSubstr, List.isPrefixOf]
  | cons p ps =>
    have h : (p :: ps).isPrefixOf ((p :: ps) ++ b) = true := by
      simp [List.isPrefixOf_iff_prefix]
    simp [hasSubstr, h]

/-- Substring matching is stable under prepending. -/
theorem hasSubstr_append_left (pat a l : List Char) (h : hasSubstr pat l = true) :
    hasSubstr pat (a ++ l) = true := by
  induction a with
  | nil => simpa using h
  | cons c t ih => simp [hasSubstr, ih]

/-- A string containing the needle with arbitrary material on both sides
passes the `includes` test. -/
theorem jsIncludes_append_needle (a b : String) :
    jsIncludes (a ++ actionsSdkNeedle ++ b) actionsSdkNeedle = true := by
  unfold jsIncludes
  have hd : (a ++ actionsSdkNeedle ++ b).data =
      a.data ++ (actionsSdkNeedle.data ++ b.data) := by
    simp [String.data_append]
  rw [hd]
  exact hasSubstr_append_left _ _ _ (hasSubstr_self_append _ _)

/-- After `classList.add`, the token is present. -/
theorem contains_classListAdd (cs : List String) (c : String) :
    classListContains (classListAdd cs c) c = true := by
  by_cases h : c ∈ cs
  · simp [classListContains, classListAdd, h]
  · simp [classListContains, classListAdd, h]

/-- After `classList.remove`, the token is absent. -/
theorem contains_classListRemove (cs : List String) (c : String) :
    classListContains (classListRemove cs c) c = false := by
  simp [classListContains, classListRemove]

/-- Adding the same token twice is the same as adding it once. -/
theorem classListAdd_idem (cs : List String) (c : String) :
    classListAdd (classListAdd cs c) c = classListAdd cs c := by
  by_cases h : c ∈ cs
  · simp [classListAdd, h]
  · simp [classListAdd, h]

/-- Removing the same token twice is the same as removing it once. -/
theorem classListRemove_idem (cs : List String) (c : String) :
    classListRemove (classListRemove cs c) c = classListRemove cs c := by
  simp [classListRemove, List.filter_filter]

/-! ## Claims about the route-conditional component -/

/-- C1: for every route path containing the substring `/docs/actions-sdk/`,
after the effect of the route-conditional component processes that path,
the marker class `actions-sdk-page` is present on the document body. -/
theorem marker_present_after_effect_on_sdk_path {α : Type} (p : String) (st : BodyState α)
    (h : jsIncludes p actionsSdkNeedle = true) :
    classListContains (runEffect p st).classes actionsSdkMarker = true := by
  simp [runEffect, isActionsSDKPage, h, contains_classListAdd]

/-- Witness for C1 at the path `/docs/actions-sdk/overview` and an empty
body class list. -/
theorem marker_present_after_effect_on_sdk_path_check :
    jsIncludes "/docs/actions-sdk/overview" actionsSdkNeedle = true ∧
    classListContains
      (runEffect "/docs/actions-sdk/overview" (BodyState.mk [] ())).classes
      actionsSdkMarker = true :=
  ⟨by decide,
   marker_present_after_effect_on_sdk_path "/docs/actions-sdk/overview"
     (BodyState.mk [] ()) (by decide)⟩

/-- C2: for every route path not containing the substring
`/docs/actions-sdk/`, after the effect processes that path, the marker
class `actions-sdk-page` is absent from the document body. -/
theorem marker_absent_after_effect_on_other_path {α : Type} (p : String) (st : BodyState α)
    (h : jsIncludes p actionsSdkNeedle = false) :
    classListContains (runEffect p st).classes actionsSdkMarker = false := by
  simp [runEffect, isActionsSDKPage, h, contains_classListRemove]

/-- Witness for C2 at the path `/docs/lightsync-sdk/intro`, starting from a
body that carries the marker class. -/
theorem marker_absent_after_effect_on_other_path_check :
    jsIncludes "/docs/lightsync-sdk/intro" actionsSdkNeedle = false ∧
    classListContains
      (runEffect "/docs/lightsync-sdk/intro" (BodyState.mk ["actions-sdk-page"] ())).classes
      actionsSdkMarker = false :=
  ⟨by decide,
   marker_absent_after_effect_on_other_path "/docs/lightsync-sdk/intro"
     (BodyState.mk ["actions-sdk-page"] ()) (by decide)⟩

/-- C3: whatever the body state at the time of unmount, after the cleanup
function of the route-conditional component runs, the marker class
`actions-sdk-page` is absent from the document body, unconditionally. -/
theorem marker_absent_after_cleanup {α : Type} (st : BodyState α) :
    classListContains (runCleanup st).classes actionsSdkMarker = false := by
  simp [runCleanup, contains_classListRemove]

/-- C4: processing the same route path twice in a row is idempotent: for
every path and every starting body state, the state after the second run of
the effect equals the state after the first run. -/
theorem effect_idempotent {α : Type} (p : String) (st : BodyState α) :
    runEffect p (runEffect p st) = runEffect p st := by
  simp only [runEffect]
  by_cases h : isActionsSDKPage p = true
  · simp [h, classListAdd_idem]
  · simp [h, classListRemove_idem]

/-- C5: every leaf document id appearing in the sidebar tree configuration,
whether a top-level string entry or an item inside a category node,
resolves to a document of the content corpus.  The corpus is the named
files of the snapshot extended by the corpus remainder modelled from the
spec (see `modelledMissingDocIds`). -/
theorem sidebar_leaf_ids_resolve :
    sidebarLeafIds.all (fun i => corpusDocIds.contains i) = true := by
  decide

/-- C6: for every descriptor list of length N, the rendered card sequence
has length N, and the card at every index is exactly the projection of the
descriptor at the same index, so input order is preserved.  The renderer
`renderCards` is a plain function of its input list, with no other state. -/
theorem renderCards_length_and_order (sdks : List SDKDescriptor) :
    (renderCards sdks).length = sdks.length ∧
    ∀ i : Nat, (renderCards sdks)[i]? = (sdks[i]?).map renderCard := by
  refine ⟨by simp [renderCards], fun i => ?_⟩
  simp [renderCards]

/-- C7: a descriptor lacking both optional media fields yields a card with
no media block, and the card still carries its heading, description and
link. -/
theorem card_without_media_fields (d : SDKDescriptor)
    (hi : d.image = none) (hv : d.video = none) :
    (renderCard d).media = [] ∧
    (renderCard d).headingText = d.title ∧
    (renderCard d).bodyText = d.description ∧
    (renderCard d).footerLink = d.link := by
  simp [renderCard, jsTruthy, hi, hv]

/-- Witness for C7 on a concrete descriptor with neither media field. -/
theorem card_without_media_fields_check :
    descriptorNoMedia.image = none ∧ descriptorNoMedia.video = none ∧
    ((renderCard descriptorNoMedia).media = [] ∧
     (renderCard descriptorNoMedia).headingText = descriptorNoMedia.title ∧
     (renderCard descriptorNoMedia).bodyText = descriptorNoMedia.description ∧
     (renderCard descriptorNoMedia).footerLink = descriptorNoMedia.link) :=
  ⟨rfl, rfl, card_without_media_fields descriptorNoMedia rfl rfl⟩

/-- C8: the route-conditional component renders nothing, and its only
observable effect, on every run of the effect and on teardown, is the
mutation of the document body class list; the rest of the observable state
is unchanged, and even within the class list only the marker token is
touched: the sublist of other tokens is preserved. -/
theorem conditional_nav_frame {α : Type} (p : String) (st : BodyState α) :
    (runEffect p st).rest = st.rest ∧
    (runCleanup st).rest = st.rest ∧
    (runEffect p st).classes.filter (fun c => !(c == actionsSdkMarker)) =
      st.classes.filter (fun c => !(c == actionsSdkMarker)) ∧
    (runCleanup st).classes.filter (fun c => !(c == actionsSdkMarker)) =
      st.classes.filter (fun c => !(c == actionsSdkMarker)) ∧
    conditionalNavScriptReturn = none := by
  refine ⟨?_, rfl, ?_, ?_, rfl⟩
  · simp only [runEffect]
    split <;> rfl
  · simp only [runEffect]
    split
    · simp only [classListAdd]
      split
      · rfl
      · simp [List.filter_append]
    · simp [classListRemove, List.filter_filter]
  · simp [runCleanup, classListRemove, List.filter_filter]

/-- C9: the path test is bare substring containment, not an anchored
test: the needle surrounded by arbitrary material still turns the marker
class on; and since the needle ends in a slash, the section-root path
`/docs/actions-sdk` without a trailing slash fails the test and the marker
class ends up absent there. -/
theorem needle_matched_anywhere_but_needs_slash {α : Type} :
    (∀ (st : BodyState α) (a b : String),
      classListContains (runEffect (a ++ actionsSdkNeedle ++ b) st).classes
        actionsSdkMarker = true) ∧
    jsIncludes "/docs/actions-sdk" actionsSdkNeedle = false ∧
    (∀ st : BodyState α,
      classListContains (runEffect "/docs/actions-sdk" st).classes
        actionsSdkMarker = false) := by
  refine ⟨fun st a b => ?_, by decide, fun st => ?_⟩
  · have h := jsIncludes_append_needle a b
    simp [runEffect, isActionsSDKPage, h, contains_classListAdd]
  · have h : isActionsSDKPage "/docs/actions-sdk" = false := by decide
    simp [runEffect, h, contains_classListRemove]

/-- C10 counterexample: a descriptor whose image field is set to the empty
string and whose video field is set has both media fields set, yet its card
carries a single media block, not two: the JSX guard uses JavaScript
truthiness, under which an empty string is falsy. -/
theorem both_media_set_two_blocks_fails :
    descriptorEmptyImage.image.isSome = true ∧
    descriptorEmptyImage.video.isSome = true ∧
    (renderCard descriptorEmptyImage).media =
      [MediaBlock.videoBlock "/LogiDoc/img/edge.mp4"] ∧
    (renderCard descriptorEmptyImage).media.length ≠ 2 := by
  refine ⟨rfl, rfl, by decide, by decide⟩

/-- C10 amended: for every descriptor whose image and video fields are both
set to nonempty strings, the rendered card contains exactly two media
blocks: the image block followed by the video block. -/
theorem card_with_both_truthy_media (d : SDKDescriptor) (i v : String)
    (hi : d.image = some i) (hine : i ≠ "") (hv : d.video = some v) (hvne : v ≠ "") :
    (renderCard d).media =
      [MediaBlock.imageBlock i d.title, MediaBlock.videoBlock v] := by
  simp [renderCard, jsTruthy, hi, hv, hine, hvne]

/-- Witness for the amended C10 on a concrete descriptor with both media
fields nonempty. -/
theorem card_with_both_truthy_media_check :
    descriptorBothMedia.image = some "/LogiDoc/img/dual.png" ∧
    descriptorBothMedia.video = some "/LogiDoc/img/dual.mp4" ∧
    (renderCard descriptorBothMedia).media =
      [MediaBlock.imageBlock "/LogiDoc/img/dual.png" descriptorBothMedia.title,
       MediaBlock.videoBlock "/LogiDoc/img/dual.mp4"] :=
  ⟨rfl, rfl,
   card_with_both_truthy_media descriptorBothMedia "/LogiDoc/img/dual.png"
     "/LogiDoc/img/dual.mp4" rfl (by decide) rfl (by decide)⟩
